import Mathlib

/-!
# Verification of the grid trading bot core

A shallow embedding of the grid strategy core of `grid_trading_bot.py`
(class `GridTradingBot`) and `grid_utils.py` (class `GridStrategyAnalyzer`).

Python `Decimal` values are modelled as exact rationals (`ℚ`); Python `int`
as `ℤ`.  Exchange-side collaborators (`round_to_tick`, order placement and
cancellation) are modelled as explicit parameters: a price-rounding function
and success/order-id responses, so that every behaviour of the code is a
function of the state, the configuration and those environment inputs.
Fallible code (Python `raise`) is modelled with `Except String`.
-/

deriving instance DecidableEq for Except

namespace GridBot

/-- One grid ladder rung; embeds the Python dataclass `GridLevel`. -/
structure GridLevel where
  price : ℚ
  side : String
  quantity : ℚ
  orderId : Option String := none
  isFilled : Bool := false
  levelIndex : ℤ := 0
deriving Repr, DecidableEq

/-- The fields of `TradingConfig` that the grid strategy reads. -/
structure TradingConfig where
  exchange : String
  ticker : String
  gridMode : Bool
  gridSpacing : ℚ
  gridUpperCount : ℤ
  gridLowerCount : ℤ
  gridPerOrderAmount : ℚ
  gridDynamicMode : Bool
  gridBreakthroughThreshold : ℚ
deriving Repr, DecidableEq

/-- The mutable grid state owned by `GridTradingBot` (`__init__`, lines 36-45). -/
structure GridState where
  centerPrice : Option ℚ
  gridLevels : List GridLevel
  activeGridOrders : List (String × GridLevel)
  totalProfit : ℚ
  gridTradesCount : ℕ
  gridMovesCount : ℕ
deriving Repr, DecidableEq

/-- The zeroed state built by `GridTradingBot.__init__` before validation. -/
def initialGridState : GridState :=
  { centerPrice := none
    gridLevels := []
    activeGridOrders := []
    totalProfit := 0
    gridTradesCount := 0
    gridMovesCount := 0 }

/-- Embeds `_validate_grid_config` (lines 50-84).  Returns `.error` exactly where the
Python raises `ValueError`; on success returns whether the soft
"lower grids will reduce price" warning was logged. -/
def validateGridConfig (cfg : TradingConfig) : Except String Bool :=
  if ¬cfg.gridMode then
    .error "Grid mode must be enabled for GridTradingBot"
  else if cfg.gridSpacing ≤ 0 then
    .error "Grid spacing must be positive"
  else if cfg.gridUpperCount ≤ 0 ∨ cfg.gridLowerCount ≤ 0 then
    .error "Grid counts must be positive"
  else if cfg.gridPerOrderAmount ≤ 0 then
    .error "Grid per order amount must be positive"
  else if (1 : ℚ) ≤ cfg.gridSpacing / 100 * cfg.gridLowerCount then
    .error "Grid configuration will cause negative prices"
  else
    .ok (decide ((4 : ℚ) / 5 ≤ cfg.gridSpacing / 100 * cfg.gridLowerCount))

/-- Embeds `GridTradingBot.__init__` (lines 32-48): builds the zeroed grid state and
validates the configuration before anything else (in particular before any
order placement); a validation error aborts construction. -/
def mkGridTradingBot (cfg : TradingConfig) : Except String GridState := do
  let _ ← validateGridConfig cfg
  .ok initialGridState

/-- ASCII `str.lower()` on one character. -/
def lowerChar (c : Char) : Char :=
  if 'A' ≤ c ∧ c ≤ 'Z' then Char.ofNat (c.toNat + 32) else c

/-- ASCII `str.upper()` on one character. -/
def upperChar (c : Char) : Char :=
  if 'a' ≤ c ∧ c ≤ 'z' then Char.ofNat (c.toNat - 32) else c

/-- Python `str.lower()` (exchange names and tickers here are ASCII). -/
def lowerString (s : String) : String := ⟨s.data.map lowerChar⟩

/-- Python `str.upper()` (exchange names and tickers here are ASCII). -/
def upperString (s : String) : String := ⟨s.data.map upperChar⟩

/-- Embeds `Decimal.quantize(unit, rounding=ROUND_DOWN)`: round towards zero to a
multiple of `unit`. -/
def quantizeDown (unit q : ℚ) : ℚ :=
  if 0 ≤ q then (⌊q / unit⌋ : ℚ) * unit else (⌈q / unit⌉ : ℚ) * unit

/-- Embeds `_round_quantity` (lines 86-108): per-exchange, per-ticker quantity
precision policy. -/
def roundQuantity (cfg : TradingConfig) (quantity : ℚ) : ℚ :=
  if lowerString cfg.exchange == "grvt" then
    if ["HYPE", "DOGE", "ADA", "XRP"].contains (upperString cfg.ticker) then
      max (quantizeDown 1 quantity) 1
    else if ["SOL", "AVAX", "NEAR"].contains (upperString cfg.ticker) then
      max (quantizeDown (1/10) quantity) (1/10)
    else
      max (quantizeDown (1/100) quantity) (1/100)
  else if ["edgex", "backpack"].contains (lowerString cfg.exchange) then
    quantizeDown (1/10000) quantity
  else
    quantizeDown (1/10000) quantity

/-- One iteration of the buy loop of `_calculate_grid_levels` (lines 119-149):
price at `center × (1 − spacing/100 × i)`, tick-rounded, checked `> 0`, with
quantity `perOrderAmount / price` rounded by the precision policy and level
index `−i`. -/
def buyLevelAt (roundToTick : ℚ → ℚ) (cfg : TradingConfig) (center : ℚ)
    (i : ℕ) : Except String GridLevel :=
  let price := roundToTick (center * (1 - cfg.gridSpacing / 100 * i))
  if price ≤ 0 then
    .error "Buy grid price <= 0"
  else
    .ok { price := price
          side := "buy"
          quantity := roundQuantity cfg (cfg.gridPerOrderAmount / price)
          levelIndex := -(i : ℤ) }

/-- One iteration of the sell loop of `_calculate_grid_levels` (lines 152-182):
price at `center × (1 + spacing/100 × i)`, tick-rounded, checked `> 0`, with
quantity `perOrderAmount / price` rounded by the precision policy and level
index `+i`. -/
def sellLevelAt (roundToTick : ℚ → ℚ) (cfg : TradingConfig) (center : ℚ)
    (i : ℕ) : Except String GridLevel :=
  let price := roundToTick (center * (1 + cfg.gridSpacing / 100 * i))
  if price ≤ 0 then
    .error "Sell grid price <= 0"
  else
    .ok { price := price
          side := "sell"
          quantity := roundQuantity cfg (cfg.gridPerOrderAmount / price)
          levelIndex := (i : ℤ) }

/-- Sequentially build the level for each index, aborting at the first error,
exactly as the Python `for` loops raise out of `_calculate_grid_levels`. -/
def buildLevels (f : ℕ → Except String GridLevel) :
    List ℕ → Except String (List GridLevel)
  | [] => .ok []
  | i :: rest => do
    let l ← f i
    let ls ← buildLevels f rest
    .ok (l :: ls)

/-- Embeds `_calculate_grid_levels` (lines 110-184).  `range' 1 n` is Python
`range(1, n+1)`.  The Python guard `if not self.center_price` is true both
for `None` and for a zero price. -/
def calculateGridLevels (roundToTick : ℚ → ℚ) (cfg : TradingConfig)
    (centerPrice : Option ℚ) : Except String (List GridLevel) :=
  match centerPrice with
  | none => .error "Center price not set"
  | some center =>
    if center = 0 then .error "Center price not set"
    else do
      let buys ← buildLevels (buyLevelAt roundToTick cfg center)
        (List.range' 1 cfg.gridLowerCount.toNat)
      let sells ← buildLevels (sellLevelAt roundToTick cfg center)
        (List.range' 1 cfg.gridUpperCount.toNat)
      .ok (buys ++ sells)

/-- Embeds `GridStrategyAnalyzer.calculate_grid_levels` in `grid_utils.py`
(lines 107-130): the pure price ladders, no tick rounding, no checks. -/
def analyzerCalculateGridLevels (centerPrice gridSpacing : ℚ)
    (gridUpper gridLower : ℤ) : List ℚ × List ℚ :=
  let spacingDecimal := gridSpacing / 100
  let buyLevels := (List.range' 1 gridLower.toNat).map
    (fun (i : ℕ) => centerPrice * (1 - spacingDecimal * i))
  let sellLevels := (List.range' 1 gridUpper.toNat).map
    (fun (i : ℕ) => centerPrice * (1 + spacingDecimal * i))
  (buyLevels, sellLevels)

/-- Embeds `order_id in self.active_grid_orders` and `self.active_grid_orders[oid]`:
dictionary lookup, modelled on an association list with unique keys. -/
def lookupOrder : List (String × GridLevel) → String → Option GridLevel
  | [], _ => none
  | p :: rest, oid => if p.1 == oid then some p.2 else lookupOrder rest oid

/-- Embeds `del self.active_grid_orders[oid]`: remove the (unique) binding. -/
def removeOrder : List (String × GridLevel) → String → List (String × GridLevel)
  | [], _ => []
  | p :: rest, oid => if p.1 == oid then rest else p :: removeOrder rest oid

/-- Embeds `self.active_grid_orders[oid] = level`: overwrite if the key is present,
otherwise append. -/
def insertOrder : List (String × GridLevel) → String → GridLevel →
    List (String × GridLevel)
  | [], oid, l => [(oid, l)]
  | p :: rest, oid, l =>
    if p.1 == oid then (oid, l) :: rest else p :: insertOrder rest oid l

/-- The exchange's reply to `place_close_order`, an environment input. -/
structure OrderResult where
  success : Bool
  orderId : String
deriving Repr, DecidableEq

/-- Embeds `_place_grid_order` (lines 203-240): on success bind the order id to the
level and insert it into `active_grid_orders`; on failure leave the state
alone.  Returns the updated state and the success flag. -/
def placeGridOrder (res : OrderResult) (s : GridState) (level : GridLevel) :
    GridState × Bool :=
  if res.success then
    let bound := { level with orderId := some res.orderId }
    ({ s with activeGridOrders :=
        insertOrder s.activeGridOrders res.orderId bound }, true)
  else
    (s, false)

/-- Embeds `_place_opposite_order_after_buy` (lines 321-348): flip a filled buy into
a sell at the same price with the filled size and the same level index.
Returns the updated state and the list of placement requests submitted. -/
def placeOppositeOrderAfterBuy (res : OrderResult) (s : GridState)
    (filledGrid : GridLevel) (filledPrice filledSize : ℚ) :
    GridState × List GridLevel :=
  let opposite : GridLevel :=
    { price := filledPrice
      side := "sell"
      quantity := filledSize
      levelIndex := filledGrid.levelIndex }
  let (s', _) := placeGridOrder res s opposite
  (s', [opposite])

/-- Embeds `_place_opposite_order_after_sell` (lines 350-385): flip a filled sell
into a buy at the same price with quantity
`round_quantity(perOrderAmount / fillPrice)`; a zero fill price raises
`DivisionByZero`, which is caught and the placement skipped. -/
def placeOppositeOrderAfterSell (cfg : TradingConfig) (res : OrderResult)
    (s : GridState) (filledGrid : GridLevel) (filledPrice : ℚ) :
    GridState × List GridLevel :=
  if filledPrice = 0 then
    (s, [])
  else
    let buyQuantity := roundQuantity cfg (cfg.gridPerOrderAmount / filledPrice)
    let opposite : GridLevel :=
      { price := filledPrice
        side := "buy"
        quantity := buyQuantity
        levelIndex := filledGrid.levelIndex }
    let (s', _) := placeGridOrder res s opposite
    (s', [opposite])

/-- Embeds `_handle_grid_order_fill` (lines 289-319): no-op when the order id is
unknown; otherwise remove the filled level from `active_grid_orders`, place
the opposite-side order at the fill price, and increment
`grid_trades_count`.  Returns the updated state and the placement requests
submitted. -/
def handleGridOrderFill (cfg : TradingConfig) (res : OrderResult)
    (s : GridState) (filledOrderId : String) (filledPrice filledSize : ℚ) :
    GridState × List GridLevel :=
  match lookupOrder s.activeGridOrders filledOrderId with
  | none => (s, [])
  | some filledGrid =>
    let s1 := { s with
      activeGridOrders := removeOrder s.activeGridOrders filledOrderId }
    let (s2, placed) :=
      if filledGrid.side == "buy" then
        placeOppositeOrderAfterBuy res s1 filledGrid filledPrice filledSize
      else
        placeOppositeOrderAfterSell cfg res s1 filledGrid filledPrice
    ({ s2 with gridTradesCount := s2.gridTradesCount + 1 }, placed)

/-- The two repositioning directions of `_check_price_breakthrough`. -/
inductive BreakDir where
  | up
  | down
deriving Repr, DecidableEq

/-- The pure decision core of `_check_price_breakthrough` (lines 387-437),
given the already-fetched mid price.  When dynamic mode is disabled the check
is skipped; otherwise UP fires iff the price exceeds
`upperBoundary + threshold`, else DOWN fires iff the price is below
`lowerBoundary − threshold`, else nothing happens.  (The surrounding I/O —
unset center price, empty level list, invalid bid/ask — likewise returns
`False` and is outside this pure core.) -/
def checkPriceBreakthrough (cfg : TradingConfig) (centerPrice currentPrice : ℚ) :
    Option BreakDir :=
  if ¬cfg.gridDynamicMode then
    none
  else
    let spacingDecimal := cfg.gridSpacing / 100
    let upperBoundary := centerPrice * (1 + spacingDecimal * cfg.gridUpperCount)
    let lowerBoundary := centerPrice * (1 - spacingDecimal * cfg.gridLowerCount)
    let breakthroughThreshold :=
      centerPrice * (spacingDecimal * cfg.gridBreakthroughThreshold)
    if upperBoundary + breakthroughThreshold < currentPrice then
      some .up
    else if currentPrice < lowerBoundary - breakthroughThreshold then
      some .down
    else
      none

/-- The environment inputs consumed by one grid move: the exchange's tick
rounding and the outcomes of the single cancel and the single place call. -/
structure MoveEnv where
  roundToTick : ℚ → ℚ
  cancelSuccess : Bool
  placeResult : OrderResult

/-- The value computed by an edge-shift: the new state, the cancelled/added
counts returned by the Python function, and the placement requests
submitted to the exchange. -/
structure MoveResult where
  state : GridState
  cancelled : ℕ
  added : ℕ
  placements : List GridLevel
deriving Repr, DecidableEq

/-- Python `min(pairs, key=lambda x: x[1].price)` over `hd :: tl`:
the first pair of minimal price. -/
def minByPrice (hd : String × GridLevel) (tl : List (String × GridLevel)) :
    String × GridLevel :=
  tl.foldl (fun acc p => if p.2.price < acc.2.price then p else acc) hd

/-- Python `max(pairs, key=lambda x: x[1].price)` over `hd :: tl`:
the first pair of maximal price. -/
def maxByPrice (hd : String × GridLevel) (tl : List (String × GridLevel)) :
    String × GridLevel :=
  tl.foldl (fun acc p => if acc.2.price < p.2.price then p else acc) hd

/-- Embeds `_move_grid_up_optimized` (lines 492-572): cancel the lowest-price buy
(skipping with a warning when there is none, or when the cancel fails), then
place one new sell one spacing step above the current highest sell (or above
the center price when no sell rests), with level index
`grid_upper_count + 1`.  The new sell price is not checked against zero
before placing; only the quantity division guards a zero price. -/
def moveGridUpOptimized (env : MoveEnv) (cfg : TradingConfig) (s : GridState) :
    MoveResult :=
  match s.activeGridOrders.filter (fun p => p.2.side == "buy") with
  | [] => { state := s, cancelled := 0, added := 0, placements := [] }
  | b :: bs =>
    let lowestBuy := minByPrice b bs
    let (s1, cancelled) :=
      if env.cancelSuccess then
        ({ s with activeGridOrders := removeOrder s.activeGridOrders lowestBuy.1 },
         1)
      else
        (s, 0)
    let spacingDecimal := cfg.gridSpacing / 100
    let newSellPrice :=
      match s1.activeGridOrders.filter (fun p => p.2.side == "sell") with
      | [] => env.roundToTick ((s1.centerPrice.getD 0) * (1 + spacingDecimal))
      | sl :: sls =>
        env.roundToTick ((maxByPrice sl sls).2.price * (1 + spacingDecimal))
    if newSellPrice = 0 then
      { state := s1, cancelled := cancelled, added := 0, placements := [] }
    else
      let sellQuantity := roundQuantity cfg (cfg.gridPerOrderAmount / newSellPrice)
      let newSellLevel : GridLevel :=
        { price := newSellPrice
          side := "sell"
          quantity := sellQuantity
          levelIndex := cfg.gridUpperCount + 1 }
      let (s2, ok) := placeGridOrder env.placeResult s1 newSellLevel
      { state := s2
        cancelled := cancelled
        added := if ok then 1 else 0
        placements := [newSellLevel] }

/-- Embeds `_move_grid_down_optimized` (lines 574-659): cancel the highest-price
sell (skipping with a warning when there is none, or when the cancel fails),
then place one new buy one spacing step below the current lowest buy (or
below the center price when no buy rests), with level index
`−(grid_lower_count + 1)`.  Unlike the UP variant, the new buy price is
checked `> 0` before placing (lines 623-626). -/
def moveGridDownOptimized (env : MoveEnv) (cfg : TradingConfig) (s : GridState) :
    MoveResult :=
  match s.activeGridOrders.filter (fun p => p.2.side == "sell") with
  | [] => { state := s, cancelled := 0, added := 0, placements := [] }
  | sl :: sls =>
    let highestSell := maxByPrice sl sls
    let (s1, cancelled) :=
      if env.cancelSuccess then
        ({ s with activeGridOrders := removeOrder s.activeGridOrders highestSell.1 },
         1)
      else
        (s, 0)
    let spacingDecimal := cfg.gridSpacing / 100
    let newBuyPrice :=
      match s1.activeGridOrders.filter (fun p => p.2.side == "buy") with
      | [] => env.roundToTick ((s1.centerPrice.getD 0) * (1 - spacingDecimal))
      | b :: bs =>
        env.roundToTick ((minByPrice b bs).2.price * (1 - spacingDecimal))
    if newBuyPrice ≤ 0 then
      { state := s1, cancelled := cancelled, added := 0, placements := [] }
    else
      let buyQuantity := roundQuantity cfg (cfg.gridPerOrderAmount / newBuyPrice)
      let newBuyLevel : GridLevel :=
        { price := newBuyPrice
          side := "buy"
          quantity := buyQuantity
          levelIndex := -(cfg.gridLowerCount + 1) }
      let (s2, ok) := placeGridOrder env.placeResult s1 newBuyLevel
      { state := s2
        cancelled := cancelled
        added := if ok then 1 else 0
        placements := [newBuyLevel] }

/-- Embeds `_execute_grid_move` (lines 467-490): tick-round and install the new
center price, run the directional edge-shift, and increment
`grid_moves_count` by one. -/
def executeGridMove (env : MoveEnv) (cfg : TradingConfig) (newCenterPrice : ℚ)
    (direction : String) (s : GridState) : MoveResult :=
  let s0 := { s with centerPrice := some (env.roundToTick newCenterPrice) }
  let r :=
    if direction == "UP" then moveGridUpOptimized env cfg s0
    else moveGridDownOptimized env cfg s0
  { r with state := { r.state with gridMovesCount := r.state.gridMovesCount + 1 } }

/-! ## Sample configurations and states used by witnesses -/

/-- A default-exchange configuration matching the spec's running example:
ETH on edgex, 1% spacing, 10 grids each side, 50 USDT per order, dynamic
mode on with breakthrough multiplier 0.5. -/
def exampleCfg : TradingConfig :=
  { exchange := "edgex"
    ticker := "ETH"
    gridMode := true
    gridSpacing := 1
    gridUpperCount := 10
    gridLowerCount := 10
    gridPerOrderAmount := 50
    gridDynamicMode := true
    gridBreakthroughThreshold := 1/2 }

/-- A GRVT configuration for a low-price token (integer precision, minimum 1). -/
def grvtHypeCfg : TradingConfig :=
  { exampleCfg with exchange := "grvt", ticker := "HYPE" }

/-- A small running state: one resting buy below and one resting sell above
a 2000 center. -/
def exampleState : GridState :=
  { centerPrice := some 2000
    gridLevels := []
    activeGridOrders :=
      [("b1", { price := 1980, side := "buy", quantity := 1/40,
                orderId := some "b1", levelIndex := -1 }),
       ("s1", { price := 2020, side := "sell", quantity := 1/40,
                orderId := some "s1", levelIndex := 1 })]
    totalProfit := 0
    gridTradesCount := 0
    gridMovesCount := 0 }

/-- A state with two resting buys (1960, 1980) and one resting sell (2020)
around a 2000 center, for exercising edge shifts. -/
def moveState : GridState :=
  { centerPrice := some 2000
    gridLevels := []
    activeGridOrders :=
      [("b1", { price := 1960, side := "buy", quantity := 1,
                orderId := some "b1", levelIndex := -2 }),
       ("b2", { price := 1980, side := "buy", quantity := 1,
                orderId := some "b2", levelIndex := -1 }),
       ("s1", { price := 2020, side := "sell", quantity := 1,
                orderId := some "s1", levelIndex := 1 })]
    totalProfit := 0
    gridTradesCount := 0
    gridMovesCount := 0 }

/-- An environment whose tick rounding snaps every price to 2040 and whose
cancel and place calls succeed with fresh id `"n1"`. -/
def envA : MoveEnv :=
  { roundToTick := fun _ => 2040
    cancelSuccess := true
    placeResult := { success := true, orderId := "n1" } }

/-- A second successful environment, tick-rounding to 2060, fresh id `"n2"`. -/
def envB : MoveEnv :=
  { roundToTick := fun _ => 2060
    cancelSuccess := true
    placeResult := { success := true, orderId := "n2" } }

/-- A pathological environment whose tick rounding returns −1. -/
def envNeg : MoveEnv :=
  { roundToTick := fun _ => -1
    cancelSuccess := true
    placeResult := { success := true, orderId := "n3" } }

/-- A state with one resting buy and no resting sell, for exercising the
extended-side center-price fallback of an UP shift. -/
def buyOnlyState : GridState :=
  { centerPrice := some 2000
    gridLevels := []
    activeGridOrders :=
      [("b1", { price := 1980, side := "buy", quantity := 1,
                orderId := some "b1", levelIndex := -1 })]
    totalProfit := 0
    gridTradesCount := 0
    gridMovesCount := 0 }

/-- A state with one resting sell and no resting buy, for exercising the
extended-side center-price fallback of a DOWN shift. -/
def sellOnlyState : GridState :=
  { centerPrice := some 2000
    gridLevels := []
    activeGridOrders :=
      [("s1", { price := 2020, side := "sell", quantity := 1,
                orderId := some "s1", levelIndex := 1 })]
    totalProfit := 0
    gridTradesCount := 0
    gridMovesCount := 0 }

/-- The minimum quantity of the GRVT branches of `_round_quantity`
(lines 89-102): 1 for low-price tokens, 0.1 for mid-price, 0.01 otherwise. -/
def minQuantity (cfg : TradingConfig) : ℚ :=
  if ["HYPE", "DOGE", "ADA", "XRP"].contains (upperString cfg.ticker) then 1
  else if ["SOL", "AVAX", "NEAR"].contains (upperString cfg.ticker) then 1/10
  else 1/100

/-- The level placed by the UP shift of `envA` from `moveState`. -/
def upPlacedLevel : GridLevel :=
  { price := 2040
    side := "sell"
    quantity := roundQuantity exampleCfg (exampleCfg.gridPerOrderAmount / 2040)
    levelIndex := 11 }

/-- The buy ladder the spec prescribes: `lowerCount` levels at
`center × (1 − spacing/100 × i)` with index `−i` for i = 1..lowerCount,
quantity `perOrderAmount / price` under the precision policy.  Stated from
the spec's words, to be compared with `calculateGridLevels`. -/
def specBuyLevels (cfg : TradingConfig) (center : ℚ) : List GridLevel :=
  (List.range' 1 cfg.gridLowerCount.toNat).map fun (i : ℕ) =>
    { price := center * (1 - cfg.gridSpacing / 100 * i)
      side := "buy"
      quantity := roundQuantity cfg (cfg.gridPerOrderAmount /
        (center * (1 - cfg.gridSpacing / 100 * i)))
      levelIndex := -(i : ℤ) }

/-- The sell ladder the spec prescribes: `upperCount` levels at
`center × (1 + spacing/100 × i)` with index `+i` for i = 1..upperCount.
Stated from the spec's words, to be compared with `calculateGridLevels`. -/
def specSellLevels (cfg : TradingConfig) (center : ℚ) : List GridLevel :=
  (List.range' 1 cfg.gridUpperCount.toNat).map fun (i : ℕ) =>
    { price := center * (1 + cfg.gridSpacing / 100 * i)
      side := "sell"
      quantity := roundQuantity cfg (cfg.gridPerOrderAmount /
        (center * (1 + cfg.gridSpacing / 100 * i)))
      levelIndex := (i : ℤ) }

/-- A configuration meeting every precondition the claim states (positive
spacing, counts ≥ 1, positive amount) but with spacing 200%. -/
def badSpacingCfg : TradingConfig :=
  { exampleCfg with gridSpacing := 200, gridUpperCount := 1, gridLowerCount := 1 }

/-! ## C2: configuration validation -/

/-- C2: with grid mode enabled and positive spacing, counts and per-order
amount, `_validate_grid_config` raises exactly when
`spacing/100 × lowerCount ≥ 1`; otherwise it succeeds, emitting the soft
warning exactly when `spacing/100 × lowerCount ≥ 0.8`; and the constructor
`__init__` propagates a validation error (so no bot state, hence no order,
is ever created from a bad configuration), while on success it yields the
zeroed initial state with no active orders. -/
theorem validate_grid_config_spec (cfg : TradingConfig)
    (hm : cfg.gridMode = true)
    (hs : 0 < cfg.gridSpacing)
    (hu : 0 < cfg.gridUpperCount)
    (hl : 0 < cfg.gridLowerCount)
    (ha : 0 < cfg.gridPerOrderAmount) :
    ((∃ msg, validateGridConfig cfg = .error msg) ↔
        1 ≤ cfg.gridSpacing / 100 * cfg.gridLowerCount) ∧
    (∀ warn, validateGridConfig cfg = .ok warn →
        (warn = true ↔ 4/5 ≤ cfg.gridSpacing / 100 * cfg.gridLowerCount)) ∧
    (∀ msg, validateGridConfig cfg = .error msg →
        mkGridTradingBot cfg = .error msg) ∧
    (∀ warn, validateGridConfig cfg = .ok warn →
        mkGridTradingBot cfg = .ok initialGridState ∧
        initialGridState.activeGridOrders = []) := by
  have h2 : ¬cfg.gridSpacing ≤ 0 := not_le.mpr hs
  have h3 : ¬(cfg.gridUpperCount ≤ 0 ∨ cfg.gridLowerCount ≤ 0) := by
    push_neg
    exact ⟨hu, hl⟩
  have h4 : ¬cfg.gridPerOrderAmount ≤ 0 := not_le.mpr ha
  have hval : validateGridConfig cfg =
      if (1 : ℚ) ≤ cfg.gridSpacing / 100 * cfg.gridLowerCount then
        .error "Grid configuration will cause negative prices"
      else
        .ok (decide ((4 : ℚ) / 5 ≤ cfg.gridSpacing / 100 * cfg.gridLowerCount)) := by
    unfold validateGridConfig
    rw [hm]
    rw [if_neg (by simp), if_neg h2, if_neg h3, if_neg h4]
  by_cases hr : (1 : ℚ) ≤ cfg.gridSpacing / 100 * cfg.gridLowerCount
  · rw [hval, if_pos hr]
    refine ⟨⟨fun _ => hr, fun _ => ⟨_, rfl⟩⟩, ?_, ?_, ?_⟩
    · intro warn hwarn
      exact absurd hwarn (by simp)
    · intro msg hmsg
      unfold mkGridTradingBot
      rw [hval, if_pos hr]
      injection hmsg with h
      rw [h]
      rfl
    · intro warn hwarn
      exact absurd hwarn (by simp)
  · rw [hval, if_neg hr]
    refine ⟨⟨fun ⟨m, hmg⟩ => absurd hmg (by simp), fun h => absurd h hr⟩, ?_, ?_, ?_⟩
    · intro warn hwarn
      injection hwarn with h
      rw [← h]
      exact decide_eq_true_iff
    · intro msg hmsg
      exact absurd hmsg (by simp)
    · intro warn _
      refine ⟨?_, rfl⟩
      unfold mkGridTradingBot
      rw [hval, if_neg hr]
      rfl

/-- Witness for C2 at the spec's two examples: spacing 1% with 10 lower
grids passes validation with no warning; spacing 15% with 10 lower grids is
a hard error that aborts construction. -/
theorem validate_grid_config_spec_witness :
    exampleCfg.gridMode = true ∧ (0 : ℚ) < 1 ∧
    ((∃ msg, validateGridConfig exampleCfg = .error msg) ↔
        1 ≤ (1 : ℚ) / 100 * 10) ∧
    validateGridConfig exampleCfg = .ok false ∧
    (∃ msg, validateGridConfig { exampleCfg with gridSpacing := 15 } = .error msg) ∧
    mkGridTradingBot { exampleCfg with gridSpacing := 15 } =
      .error "Grid configuration will cause negative prices" := by
  refine ⟨rfl, by norm_num, ?_,
    by norm_num [validateGridConfig, exampleCfg],
    ⟨"Grid configuration will cause negative prices",
      by norm_num [validateGridConfig, exampleCfg]⟩,
    by norm_num [mkGridTradingBot, validateGridConfig, exampleCfg, Bind.bind,
      Except.bind]⟩
  have h := (validate_grid_config_spec exampleCfg rfl (by norm_num [exampleCfg])
    (by norm_num [exampleCfg]) (by norm_num [exampleCfg])
    (by norm_num [exampleCfg])).1
  exact h

/-! ## C6: fills for unknown order ids are a no-op -/

/-- C6: `_handle_grid_order_fill` with an order id absent from
`active_grid_orders` returns immediately: the state (center price, levels,
active orders, counters, profit) is unchanged and no placement is made. -/
theorem fill_unknown_order_noop (cfg : TradingConfig) (res : OrderResult)
    (s : GridState) (oid : String) (fillPrice fillSize : ℚ)
    (h : lookupOrder s.activeGridOrders oid = none) :
    handleGridOrderFill cfg res s oid fillPrice fillSize = (s, []) := by
  unfold handleGridOrderFill
  rw [h]

/-- Witness for C6: the id `"zzz"` is not an active order of the example
state, and feeding a fill for it changes nothing. -/
theorem fill_unknown_order_noop_witness :
    lookupOrder exampleState.activeGridOrders "zzz" = none ∧
    handleGridOrderFill exampleCfg { success := true, orderId := "n1" }
      exampleState "zzz" 1980 (1/40) = (exampleState, []) := by
  have h : lookupOrder exampleState.activeGridOrders "zzz" = none := by rfl
  exact ⟨h, fill_unknown_order_noop exampleCfg _ exampleState "zzz" 1980 (1/40) h⟩

/-! ## C7: quantity precision policy -/

lemma quantizeDown_le (unit q : ℚ) (hu : 0 < unit) (hq : 0 ≤ q) :
    quantizeDown unit q ≤ q := by
  unfold quantizeDown
  rw [if_pos hq]
  calc (⌊q / unit⌋ : ℚ) * unit ≤ q / unit * unit :=
        mul_le_mul_of_nonneg_right (Int.floor_le _) hu.le
    _ = q := div_mul_cancel₀ q (ne_of_gt hu)

/-- C7 counterexample: on GRVT with ticker HYPE, the raw quantity 1/2 is
clamped **up** to the policy minimum 1 by `_round_quantity`
(`max(rounded, Decimal('1'))`, line 94), so "precision-rounded down
(never up) ... and never below the policy's minimum" is false as stated:
the rounded result exceeds the raw quantity. -/
theorem round_quantity_counterexample :
    roundQuantity grvtHypeCfg (1/2) = 1 ∧
    ¬(roundQuantity grvtHypeCfg (1/2) ≤ 1/2) := by
  have hx : (lowerString grvtHypeCfg.exchange == "grvt") = true := by decide
  have ht : (["HYPE", "DOGE", "ADA", "XRP"].contains
      (upperString grvtHypeCfg.ticker)) = true := by decide
  have h1 : roundQuantity grvtHypeCfg (1/2) = 1 := by
    simp only [roundQuantity, hx, ht, if_true]
    norm_num [quantizeDown]
  exact ⟨h1, by rw [h1]; norm_num⟩

/-- C7 amended: for non-GRVT exchanges the quantity is precision-rounded
down (never up, `quantize(..., ROUND_DOWN)` with no minimum clamp); for
GRVT the result is never below the policy's per-ticker minimum, and it is a
round-down (never up) only when the raw quantity is at least that minimum —
below the minimum it is clamped up to it. -/
theorem round_quantity_policy (cfg : TradingConfig) (q : ℚ) (hq : 0 ≤ q) :
    (¬lowerString cfg.exchange = "grvt" → roundQuantity cfg q ≤ q) ∧
    (lowerString cfg.exchange = "grvt" →
      minQuantity cfg ≤ roundQuantity cfg q ∧
      (minQuantity cfg ≤ q → roundQuantity cfg q ≤ q)) := by
  unfold roundQuantity minQuantity
  constructor
  · intro hne
    have hb : (lowerString cfg.exchange == "grvt") = false := by
      simp [hne]
    rw [hb]
    simp only [Bool.false_eq_true, if_false]
    split
    · exact quantizeDown_le _ q (by norm_num) hq
    · exact quantizeDown_le _ q (by norm_num) hq
  · intro heq
    have hb : (lowerString cfg.exchange == "grvt") = true := by
      simp [heq]
    rw [hb]
    simp only [if_true]
    split
    · exact ⟨le_max_right _ _,
        fun hmin => max_le (quantizeDown_le 1 q one_pos hq) hmin⟩
    · split
      · exact ⟨le_max_right _ _,
          fun hmin => max_le (quantizeDown_le (1/10) q (by norm_num) hq) hmin⟩
      · exact ⟨le_max_right _ _,
          fun hmin => max_le (quantizeDown_le (1/100) q (by norm_num) hq) hmin⟩

/-- Witness for C7 (amended) on GRVT/HYPE with raw quantity 5: the result
is at least the minimum 1 and, since 5 is above the minimum, at most 5. -/
theorem round_quantity_policy_witness :
    (0 : ℚ) ≤ 5 ∧
    (minQuantity grvtHypeCfg ≤ roundQuantity grvtHypeCfg 5 ∧
      (minQuantity grvtHypeCfg ≤ 5 → roundQuantity grvtHypeCfg 5 ≤ 5)) :=
  ⟨by norm_num,
    (round_quantity_policy grvtHypeCfg 5 (by norm_num)).2 (by decide)⟩

/-! ## C10: total profit is never modified after initialization -/

lemma placeGridOrder_totalProfit (res : OrderResult) (s : GridState)
    (l : GridLevel) : (placeGridOrder res s l).1.totalProfit = s.totalProfit := by
  unfold placeGridOrder
  split <;> rfl

lemma handleGridOrderFill_totalProfit (cfg : TradingConfig) (res : OrderResult)
    (s : GridState) (oid : String) (fillPrice fillSize : ℚ) :
    (handleGridOrderFill cfg res s oid fillPrice fillSize).1.totalProfit =
      s.totalProfit := by
  unfold handleGridOrderFill placeOppositeOrderAfterBuy
    placeOppositeOrderAfterSell
  cases h : lookupOrder s.activeGridOrders oid with
  | none => rfl
  | some g =>
    dsimp only
    split
    · exact placeGridOrder_totalProfit res _ _
    · split
      · rfl
      · exact placeGridOrder_totalProfit res _ _

lemma moveGridUpOptimized_totalProfit (env : MoveEnv) (cfg : TradingConfig)
    (s : GridState) :
    (moveGridUpOptimized env cfg s).state.totalProfit = s.totalProfit := by
  unfold moveGridUpOptimized
  split
  · rfl
  · dsimp only
    split <;> split <;>
      first
        | rfl
        | exact placeGridOrder_totalProfit _ _ _

lemma moveGridDownOptimized_totalProfit (env : MoveEnv) (cfg : TradingConfig)
    (s : GridState) :
    (moveGridDownOptimized env cfg s).state.totalProfit = s.totalProfit := by
  unfold moveGridDownOptimized
  split
  · rfl
  · dsimp only
    split <;> split <;>
      first
        | rfl
        | exact placeGridOrder_totalProfit _ _ _

lemma executeGridMove_totalProfit (env : MoveEnv) (cfg : TradingConfig)
    (newCenterPrice : ℚ) (direction : String) (s : GridState) :
    (executeGridMove env cfg newCenterPrice direction s).state.totalProfit =
      s.totalProfit := by
  unfold executeGridMove
  dsimp only
  split
  · exact moveGridUpOptimized_totalProfit env cfg _
  · exact moveGridDownOptimized_totalProfit env cfg _

/-- C10: `total_profit` is set to 0 at construction and no grid operation
(fill handling, either edge-shift, or a full grid move) ever changes it, so
the status monitor and the shutdown statistics always report a total profit
of exactly 0. -/
theorem total_profit_never_modified :
    initialGridState.totalProfit = 0 ∧
    (∀ (cfg : TradingConfig) (res : OrderResult) (s : GridState)
        (oid : String) (fillPrice fillSize : ℚ),
      (handleGridOrderFill cfg res s oid fillPrice fillSize).1.totalProfit =
        s.totalProfit) ∧
    (∀ (env : MoveEnv) (cfg : TradingConfig) (s : GridState),
      (moveGridUpOptimized env cfg s).state.totalProfit = s.totalProfit) ∧
    (∀ (env : MoveEnv) (cfg : TradingConfig) (s : GridState),
      (moveGridDownOptimized env cfg s).state.totalProfit = s.totalProfit) ∧
    (∀ (env : MoveEnv) (cfg : TradingConfig) (newCenterPrice : ℚ)
        (direction : String) (s : GridState),
      (executeGridMove env cfg newCenterPrice direction s).state.totalProfit =
        s.totalProfit) :=
  ⟨rfl, handleGridOrderFill_totalProfit, moveGridUpOptimized_totalProfit,
    moveGridDownOptimized_totalProfit, executeGridMove_totalProfit⟩

/-! ## C4: breakthrough detection -/

/-- C4: with dynamic mode disabled the check never fires; with it enabled,
an UP move is triggered iff the current price strictly exceeds
`centerPrice × (1 + spacing/100 × upperCount)` plus the threshold
`centerPrice × (spacing/100 × breakthroughMultiplier)`, and a DOWN move iff
the price is strictly below
`centerPrice × (1 − spacing/100 × lowerCount)` minus that threshold;
otherwise nothing happens. -/
theorem breakthrough_decision (cfg : TradingConfig) (center price : ℚ)
    (hc : 0 < center) (hs : 0 < cfg.gridSpacing)
    (hu : 1 ≤ cfg.gridUpperCount) (hl : 1 ≤ cfg.gridLowerCount)
    (hm : 0 ≤ cfg.gridBreakthroughThreshold) :
    (cfg.gridDynamicMode = false →
      checkPriceBreakthrough cfg center price = none) ∧
    (cfg.gridDynamicMode = true →
      (checkPriceBreakthrough cfg center price = some .up ↔
        center * (1 + cfg.gridSpacing / 100 * cfg.gridUpperCount) +
          center * (cfg.gridSpacing / 100 * cfg.gridBreakthroughThreshold) <
            price) ∧
      (checkPriceBreakthrough cfg center price = some .down ↔
        price <
          center * (1 - cfg.gridSpacing / 100 * cfg.gridLowerCount) -
            center * (cfg.gridSpacing / 100 * cfg.gridBreakthroughThreshold))) := by
  have hub : center * (1 - cfg.gridSpacing / 100 * cfg.gridLowerCount) -
      center * (cfg.gridSpacing / 100 * cfg.gridBreakthroughThreshold) ≤
      center * (1 + cfg.gridSpacing / 100 * cfg.gridUpperCount) +
      center * (cfg.gridSpacing / 100 * cfg.gridBreakthroughThreshold) := by
    have hu' : (1 : ℚ) ≤ (cfg.gridUpperCount : ℚ) := by exact_mod_cast hu
    have hl' : (1 : ℚ) ≤ (cfg.gridLowerCount : ℚ) := by exact_mod_cast hl
    nlinarith [mul_pos hc hs, mul_nonneg (mul_pos hc hs).le hm,
      mul_nonneg (mul_pos hc hs).le (by linarith : (0:ℚ) ≤ (cfg.gridUpperCount : ℚ)),
      mul_nonneg (mul_pos hc hs).le (by linarith : (0:ℚ) ≤ (cfg.gridLowerCount : ℚ))]
  constructor
  · intro hdyn
    unfold checkPriceBreakthrough
    rw [hdyn]
    rfl
  · intro hdyn
    unfold checkPriceBreakthrough
    rw [hdyn]
    dsimp only
    rw [if_neg (by simp)]
    constructor
    · constructor
      · intro h
        by_cases hup : center * (1 + cfg.gridSpacing / 100 * cfg.gridUpperCount) +
            center * (cfg.gridSpacing / 100 * cfg.gridBreakthroughThreshold) < price
        · exact hup
        · rw [if_neg hup] at h
          split at h <;> simp_all
      · intro hup
        rw [if_pos hup]
    · constructor
      · intro h
        by_cases hup : center * (1 + cfg.gridSpacing / 100 * cfg.gridUpperCount) +
            center * (cfg.gridSpacing / 100 * cfg.gridBreakthroughThreshold) < price
        · rw [if_pos hup] at h
          simp at h
        · rw [if_neg hup] at h
          split at h <;> simp_all
      · intro hdown
        have hup : ¬(center * (1 + cfg.gridSpacing / 100 * cfg.gridUpperCount) +
            center * (cfg.gridSpacing / 100 * cfg.gridBreakthroughThreshold) < price) := by
          intro hup
          linarith
        rw [if_neg hup, if_pos hdown]

/-- Witness for C4 at the spec's worked example: center 2000, spacing 1%,
10 grids each side, multiplier 0.5 gives upper boundary 2200 and threshold
10: price 2211 > 2210 triggers an UP move and price 2205 does not trigger
anything. -/
theorem breakthrough_decision_witness :
    (0 : ℚ) < 2000 ∧
    (exampleCfg.gridDynamicMode = true →
      (checkPriceBreakthrough exampleCfg 2000 2211 = some .up ↔
        2000 * (1 + (1 : ℚ) / 100 * 10) + 2000 * ((1 : ℚ) / 100 * (1/2)) < 2211)) ∧
    checkPriceBreakthrough exampleCfg 2000 2211 = some .up ∧
    checkPriceBreakthrough exampleCfg 2000 2205 = none := by
  have h := (breakthrough_decision exampleCfg 2000 2211 (by norm_num)
    (by norm_num [exampleCfg]) (by norm_num [exampleCfg])
    (by norm_num [exampleCfg]) (by norm_num [exampleCfg])).2
  refine ⟨by norm_num, ?_, ?_, ?_⟩
  · intro hdyn
    exact (h hdyn).1
  · exact ((h rfl).1).mpr (by norm_num [exampleCfg])
  · have hd := (breakthrough_decision exampleCfg 2000 2205 (by norm_num)
      (by norm_num [exampleCfg]) (by norm_num [exampleCfg])
      (by norm_num [exampleCfg]) (by norm_num [exampleCfg])).2 rfl
    cases hres : checkPriceBreakthrough exampleCfg 2000 2205 with
    | none => rfl
    | some dir =>
      cases dir with
      | up =>
        have := hd.1.mp hres
        norm_num [exampleCfg] at this
      | down =>
        have := hd.2.mp hres
        norm_num [exampleCfg] at this

/-! ## Association-list lemmas for the active-order dictionary -/

lemma lookupOrder_eq_none (l : List (String × GridLevel)) (oid : String)
    (h : oid ∉ l.map Prod.fst) : lookupOrder l oid = none := by
  induction l with
  | nil => rfl
  | cons p rest ih =>
    simp only [List.map_cons, List.mem_cons] at h
    push_neg at h
    unfold lookupOrder
    rw [if_neg (by simp only [beq_iff_eq]; exact fun hh => h.1 hh.symm)]
    exact ih h.2

lemma lookupOrder_removeOrder_self (l : List (String × GridLevel))
    (oid : String) (hnodup : (l.map Prod.fst).Nodup) :
    lookupOrder (removeOrder l oid) oid = none := by
  induction l with
  | nil => rfl
  | cons p rest ih =>
    simp only [List.map_cons, List.nodup_cons] at hnodup
    unfold removeOrder
    by_cases hp : (p.1 == oid) = true
    · rw [if_pos hp]
      have hpk : p.1 = oid := by simpa using hp
      exact lookupOrder_eq_none rest oid (hpk ▸ hnodup.1)
    · rw [if_neg hp]
      unfold lookupOrder
      rw [if_neg hp]
      exact ih hnodup.2

lemma lookupOrder_insertOrder_ne (l : List (String × GridLevel))
    (k oid : String) (v : GridLevel) (hne : k ≠ oid) :
    lookupOrder (insertOrder l k v) oid = lookupOrder l oid := by
  induction l with
  | nil =>
    unfold insertOrder lookupOrder
    rw [if_neg (by simp [hne])]
    rfl
  | cons p rest ih =>
    unfold insertOrder
    by_cases hp : (p.1 == k) = true
    · rw [if_pos hp]
      have hpk : p.1 = k := by simpa using hp
      unfold lookupOrder
      rw [if_neg (by simp [hne]), if_neg (by simp [hpk, hne])]
    · rw [if_neg hp]
      unfold lookupOrder
      by_cases hq : (p.1 == oid) = true
      · rw [if_pos hq, if_pos hq]
      · rw [if_neg hq, if_neg hq]
        exact ih

/-! ## C3: the flip policy on fills -/

/-- C3: for a fill whose order id is active, `_handle_grid_order_fill`
removes the filled level from `active_grid_orders`, submits exactly one
opposite-side placement and increments `grid_trades_count` by one.  A buy
fill at price P with size S yields one sell placement at price P with
quantity exactly S; a sell fill at price P yields one buy placement at
price P with quantity `_round_quantity(perOrderAmount / P)` (the precision
policy's round-down).  Both keep the filled level's index.  The exchange's
new order id is assumed distinct from the filled one. -/
theorem flip_policy_on_fill (cfg : TradingConfig) (res : OrderResult)
    (s : GridState) (oid : String) (fillPrice fillSize : ℚ) (g : GridLevel)
    (hfound : lookupOrder s.activeGridOrders oid = some g)
    (hnodup : (s.activeGridOrders.map Prod.fst).Nodup)
    (hfresh : res.orderId ≠ oid) (hP : fillPrice ≠ 0) :
    (g.side = "buy" →
      (handleGridOrderFill cfg res s oid fillPrice fillSize).2 =
        [{ price := fillPrice, side := "sell", quantity := fillSize,
           levelIndex := g.levelIndex }] ∧
      lookupOrder
        (handleGridOrderFill cfg res s oid fillPrice fillSize).1.activeGridOrders
        oid = none ∧
      (handleGridOrderFill cfg res s oid fillPrice fillSize).1.gridTradesCount =
        s.gridTradesCount + 1) ∧
    (g.side = "sell" →
      (handleGridOrderFill cfg res s oid fillPrice fillSize).2 =
        [{ price := fillPrice, side := "buy",
           quantity := roundQuantity cfg (cfg.gridPerOrderAmount / fillPrice),
           levelIndex := g.levelIndex }] ∧
      lookupOrder
        (handleGridOrderFill cfg res s oid fillPrice fillSize).1.activeGridOrders
        oid = none ∧
      (handleGridOrderFill cfg res s oid fillPrice fillSize).1.gridTradesCount =
        s.gridTradesCount + 1) := by
  have hlook : ∀ t : GridState,
      t.activeGridOrders = removeOrder s.activeGridOrders oid →
      ∀ lvl : GridLevel,
        lookupOrder (placeGridOrder res t lvl).1.activeGridOrders oid = none := by
    intro t ht lvl
    unfold placeGridOrder
    split
    · dsimp only
      rw [ht, lookupOrder_insertOrder_ne _ _ _ _ hfresh,
        lookupOrder_removeOrder_self _ _ hnodup]
    · dsimp only
      rw [ht, lookupOrder_removeOrder_self _ _ hnodup]
  constructor
  · intro hside
    have hb : (g.side == "buy") = true := by simp [hside]
    unfold handleGridOrderFill
    rw [hfound]
    dsimp only
    rw [hb]
    simp only [if_true]
    unfold placeOppositeOrderAfterBuy
    refine ⟨rfl, ?_, ?_⟩
    · exact hlook _ rfl _
    · unfold placeGridOrder
      split <;> rfl
  · intro hside
    have hb : (g.side == "buy") = false := by simp [hside]
    unfold handleGridOrderFill
    rw [hfound]
    dsimp only
    rw [hb]
    simp only [Bool.false_eq_true, if_false]
    unfold placeOppositeOrderAfterSell
    rw [if_neg hP]
    refine ⟨rfl, ?_, ?_⟩
    · exact hlook _ rfl _
    · unfold placeGridOrder
      split <;> rfl

/-- Witness for C3: filling the resting buy `"b1"` of the example state at
price 1980 with size 1/40 produces exactly one sell placement at 1980 with
quantity 1/40, removes `"b1"` from the active orders, and bumps the trade
counter from 0 to 1. -/
theorem flip_policy_on_fill_witness :
    lookupOrder exampleState.activeGridOrders "b1" =
      some { price := 1980, side := "buy", quantity := 1/40,
             orderId := some "b1", levelIndex := -1 } ∧
    ((handleGridOrderFill exampleCfg { success := true, orderId := "n1" }
        exampleState "b1" 1980 (1/40)).2 =
      [{ price := 1980, side := "sell", quantity := 1/40, levelIndex := -1 }] ∧
    lookupOrder
      (handleGridOrderFill exampleCfg { success := true, orderId := "n1" }
        exampleState "b1" 1980 (1/40)).1.activeGridOrders "b1" = none ∧
    (handleGridOrderFill exampleCfg { success := true, orderId := "n1" }
        exampleState "b1" 1980 (1/40)).1.gridTradesCount =
      exampleState.gridTradesCount + 1) :=
  ⟨rfl,
    (flip_policy_on_fill exampleCfg { success := true, orderId := "n1" }
      exampleState "b1" 1980 (1/40) _ rfl (by decide) (by decide)
      (by norm_num)).1 rfl⟩

lemma minByPrice_mem (hd : String × GridLevel)
    (tl : List (String × GridLevel)) : minByPrice hd tl ∈ hd :: tl := by
  unfold minByPrice
  induction tl generalizing hd with
  | nil => exact List.mem_singleton.mpr rfl
  | cons p ps ih =>
    simp only [List.foldl_cons]
    by_cases hc : p.2.price < hd.2.price
    · rw [if_pos hc]
      rcases List.mem_cons.mp (ih p) with h | h
      · rw [h]
        exact List.mem_cons_of_mem _ (List.mem_cons_self _ _)
      · exact List.mem_cons_of_mem _ (List.mem_cons_of_mem _ h)
    · rw [if_neg hc]
      rcases List.mem_cons.mp (ih hd) with h | h
      · rw [h]
        exact List.mem_cons_self _ _
      · exact List.mem_cons_of_mem _ (List.mem_cons_of_mem _ h)

lemma maxByPrice_mem (hd : String × GridLevel)
    (tl : List (String × GridLevel)) : maxByPrice hd tl ∈ hd :: tl := by
  unfold maxByPrice
  induction tl generalizing hd with
  | nil => exact List.mem_singleton.mpr rfl
  | cons p ps ih =>
    simp only [List.foldl_cons]
    by_cases hc : hd.2.price < p.2.price
    · rw [if_pos hc]
      rcases List.mem_cons.mp (ih p) with h | h
      · rw [h]
        exact List.mem_cons_of_mem _ (List.mem_cons_self _ _)
      · exact List.mem_cons_of_mem _ (List.mem_cons_of_mem _ h)
    · rw [if_neg hc]
      rcases List.mem_cons.mp (ih hd) with h | h
      · rw [h]
        exact List.mem_cons_self _ _
      · exact List.mem_cons_of_mem _ (List.mem_cons_of_mem _ h)

lemma removeOrder_length (l : List (String × GridLevel)) (k : String)
    (h : k ∈ l.map Prod.fst) : (removeOrder l k).length + 1 = l.length := by
  induction l with
  | nil => simp at h
  | cons p rest ih =>
    unfold removeOrder
    by_cases hp : (p.1 == k) = true
    · rw [if_pos hp]
      rfl
    · rw [if_neg hp]
      have hk : k ∈ rest.map Prod.fst := by
        simp only [List.map_cons, List.mem_cons] at h
        rcases h with h | h
        · exact absurd (by simp [h]) hp
        · exact h
      have := ih hk
      simp only [List.length_cons]
      omega

lemma mem_of_mem_removeOrder (l : List (String × GridLevel)) (k : String)
    (p : String × GridLevel) (h : p ∈ removeOrder l k) : p ∈ l := by
  induction l with
  | nil => simp [removeOrder] at h
  | cons q rest ih =>
    unfold removeOrder at h
    by_cases hq : (q.1 == k) = true
    · rw [if_pos hq] at h
      exact List.mem_cons_of_mem _ h
    · rw [if_neg hq] at h
      rcases List.mem_cons.mp h with h | h
      · rw [h]
        exact List.mem_cons_self _ _
      · exact List.mem_cons_of_mem _ (ih h)

lemma mem_removeOrder_of_ne (l : List (String × GridLevel)) (k : String)
    (p : String × GridLevel) (hmem : p ∈ l) (hne : p.1 ≠ k) :
    p ∈ removeOrder l k := by
  induction l with
  | nil => simp at hmem
  | cons q rest ih =>
    unfold removeOrder
    rcases List.mem_cons.mp hmem with h | h
    · subst h
      rw [if_neg (by simpa using hne)]
      exact List.mem_cons_self _ _
    · by_cases hq : (q.1 == k) = true
      · rw [if_pos hq]
        exact h
      · rw [if_neg hq]
        exact List.mem_cons_of_mem _ (ih h)

lemma insertOrder_length_of_not_mem (l : List (String × GridLevel))
    (k : String) (v : GridLevel) (h : k ∉ l.map Prod.fst) :
    (insertOrder l k v).length = l.length + 1 := by
  induction l with
  | nil => rfl
  | cons p rest ih =>
    simp only [List.map_cons, List.mem_cons] at h
    push_neg at h
    unfold insertOrder
    rw [if_neg (by simp only [beq_iff_eq]; exact fun hh => h.1 hh.symm)]
    simp only [List.length_cons, ih h.2]

lemma not_mem_keys_removeOrder (l : List (String × GridLevel))
    (k k' : String) (h : k' ∉ l.map Prod.fst) :
    k' ∉ (removeOrder l k).map Prod.fst := by
  intro hc
  rcases List.mem_map.mp hc with ⟨p, hp, hpk⟩
  exact h (List.mem_map.mpr ⟨p, mem_of_mem_removeOrder l k p hp, hpk⟩)

lemma eq_of_keys_nodup (l : List (String × GridLevel))
    (hnodup : (l.map Prod.fst).Nodup) (p q : String × GridLevel)
    (hp : p ∈ l) (hq : q ∈ l) (hk : p.1 = q.1) : p = q := by
  induction l with
  | nil => simp at hp
  | cons a rest ih =>
    simp only [List.map_cons, List.nodup_cons] at hnodup
    rcases List.mem_cons.mp hp with h1 | h1 <;> rcases List.mem_cons.mp hq with h2 | h2
    · rw [h1, h2]
    · subst h1
      exact absurd (List.mem_map.mpr ⟨q, h2, hk.symm⟩) hnodup.1
    · subst h2
      exact absurd (List.mem_map.mpr ⟨p, h1, hk⟩) hnodup.1
    · exact ih hnodup.2 h1 h2

/-! ## C5: an UP edge-shift preserves the active-order count -/

/-- C5: from any grid state with unique order ids, at least one resting buy
and at least one resting sell, all resting prices positive, and an
environment in which tick rounding preserves positivity, the cancel call
succeeds, the placement call succeeds and the exchange issues a fresh order
id, an UP `_execute_grid_move` cancels exactly one order, adds exactly one
order, leaves the total count of active orders unchanged, and increments
`grid_moves_count` by exactly one. -/
theorem up_move_preserves_active_count (env : MoveEnv) (cfg : TradingConfig)
    (newCenterPrice : ℚ) (s : GridState)
    (hnodup : (s.activeGridOrders.map Prod.fst).Nodup)
    (hbuy : s.activeGridOrders.filter (fun p => p.2.side == "buy") ≠ [])
    (hsell : s.activeGridOrders.filter (fun p => p.2.side == "sell") ≠ [])
    (hprice : ∀ p ∈ s.activeGridOrders, 0 < p.2.price)
    (hs : 0 < cfg.gridSpacing)
    (htick : ∀ q : ℚ, 0 < q → 0 < env.roundToTick q)
    (hcancel : env.cancelSuccess = true)
    (hplace : env.placeResult.success = true)
    (hfresh : env.placeResult.orderId ∉ s.activeGridOrders.map Prod.fst) :
    (executeGridMove env cfg newCenterPrice "UP" s).state.activeGridOrders.length =
      s.activeGridOrders.length ∧
    (executeGridMove env cfg newCenterPrice "UP" s).cancelled = 1 ∧
    (executeGridMove env cfg newCenterPrice "UP" s).added = 1 ∧
    (executeGridMove env cfg newCenterPrice "UP" s).state.gridMovesCount =
      s.gridMovesCount + 1 := by
  have hup : executeGridMove env cfg newCenterPrice "UP" s =
      (let r := moveGridUpOptimized env cfg
        { s with centerPrice := some (env.roundToTick newCenterPrice) }
      { r with state :=
          { r.state with gridMovesCount := r.state.gridMovesCount + 1 } }) := rfl
  rw [hup]
  unfold moveGridUpOptimized
  dsimp only
  cases hfb : s.activeGridOrders.filter (fun p => p.2.side == "buy") with
  | nil => exact absurd hfb hbuy
  | cons b bs =>
    rw [hcancel]
    simp only [eq_self_iff_true, if_true]
    have hLBfilter : minByPrice b bs ∈
        s.activeGridOrders.filter (fun p => p.2.side == "buy") := by
      rw [hfb]
      exact minByPrice_mem b bs
    have hLBmem : minByPrice b bs ∈ s.activeGridOrders :=
      (List.mem_filter.mp hLBfilter).1
    have hLBside : ((minByPrice b bs).2.side == "buy") = true :=
      (List.mem_filter.mp hLBfilter).2
    obtain ⟨q, hqfilter⟩ := List.exists_mem_of_ne_nil _ hsell
    have hqmem : q ∈ s.activeGridOrders := (List.mem_filter.mp hqfilter).1
    have hqside : (q.2.side == "sell") = true := (List.mem_filter.mp hqfilter).2
    have hqne : q.1 ≠ (minByPrice b bs).1 := by
      intro hkeq
      have heq := eq_of_keys_nodup s.activeGridOrders hnodup q
        (minByPrice b bs) hqmem hLBmem hkeq
      rw [heq] at hqside
      simp only [beq_iff_eq] at hqside hLBside
      rw [hLBside] at hqside
      exact absurd hqside (by decide)
    have hqrem : q ∈ removeOrder s.activeGridOrders (minByPrice b bs).1 :=
      mem_removeOrder_of_ne _ _ q hqmem hqne
    have hqfs : q ∈ (removeOrder s.activeGridOrders
        (minByPrice b bs).1).filter (fun p => p.2.side == "sell") :=
      List.mem_filter.mpr ⟨hqrem, hqside⟩
    cases hfs : (removeOrder s.activeGridOrders
        (minByPrice b bs).1).filter (fun p => p.2.side == "sell") with
    | nil =>
      rw [hfs] at hqfs
      simp at hqfs
    | cons sl sls =>
      dsimp only
      have hmaxmem : maxByPrice sl sls ∈ s.activeGridOrders := by
        have h1 : maxByPrice sl sls ∈ sl :: sls := maxByPrice_mem sl sls
        rw [← hfs] at h1
        exact mem_of_mem_removeOrder _ _ _ (List.mem_filter.mp h1).1
      have hfactor : (0 : ℚ) < 1 + cfg.gridSpacing / 100 := by linarith
      have hnsp : 0 < env.roundToTick
          ((maxByPrice sl sls).2.price * (1 + cfg.gridSpacing / 100)) :=
        htick _ (mul_pos (hprice _ hmaxmem) hfactor)
      rw [if_neg hnsp.ne']
      unfold placeGridOrder
      rw [hplace]
      simp only [eq_self_iff_true, if_true]
      refine ⟨?_, by trivial, by trivial, by trivial⟩
      have hkmem : (minByPrice b bs).1 ∈ s.activeGridOrders.map Prod.fst :=
        List.mem_map.mpr ⟨minByPrice b bs, hLBmem, rfl⟩
      have hfresh' : env.placeResult.orderId ∉
          (removeOrder s.activeGridOrders (minByPrice b bs).1).map Prod.fst :=
        not_mem_keys_removeOrder _ _ _ hfresh
      rw [insertOrder_length_of_not_mem _ _ _ hfresh']
      have := removeOrder_length s.activeGridOrders (minByPrice b bs).1 hkmem
      omega

/-- Witness for C5: on a state with two resting buys (1960, 1980) and one
resting sell (2020), a successful UP move leaves the active-order count at
3, cancels one, adds one and bumps the move counter to 1. -/
theorem up_move_preserves_active_count_witness :
    (moveState.activeGridOrders.map Prod.fst).Nodup ∧
    ((executeGridMove envA exampleCfg 2020 "UP" moveState).state.activeGridOrders.length =
      moveState.activeGridOrders.length ∧
    (executeGridMove envA exampleCfg 2020 "UP" moveState).cancelled = 1 ∧
    (executeGridMove envA exampleCfg 2020 "UP" moveState).added = 1 ∧
    (executeGridMove envA exampleCfg 2020 "UP" moveState).state.gridMovesCount =
      moveState.gridMovesCount + 1) :=
  ⟨by decide, up_move_preserves_active_count envA exampleCfg 2020 moveState
    (by decide) (by decide) (by decide) (by decide)
    (by norm_num [exampleCfg])
    (fun q _ => by show (0 : ℚ) < 2040; norm_num) rfl rfl (by decide)⟩

/-! ## C8: the level index assigned on edge-shifts -/

/-- C8 amended: on every UP edge-shift the single new sell order is always
assigned the fixed level index `grid_upper_count + 1`, and on every DOWN
edge-shift the new buy order the fixed index `−(grid_lower_count + 1)` —
not the next unused index.  The index does exceed the original configured
count, but every edge-shift in the same direction reuses the same index. -/
theorem edge_shift_fixed_level_index (env : MoveEnv) (cfg : TradingConfig)
    (s : GridState) :
    (∀ l ∈ (moveGridUpOptimized env cfg s).placements,
      l.levelIndex = cfg.gridUpperCount + 1) ∧
    (∀ l ∈ (moveGridDownOptimized env cfg s).placements,
      l.levelIndex = -(cfg.gridLowerCount + 1)) := by
  constructor
  · intro l hl
    unfold moveGridUpOptimized at hl
    revert hl
    split
    · intro hl
      exact absurd hl (List.not_mem_nil _)
    · dsimp only
      split <;> split <;> intro hl <;>
        first
          | exact absurd hl (List.not_mem_nil _)
          | (rw [List.mem_singleton] at hl; subst hl; rfl)
  · intro l hl
    unfold moveGridDownOptimized at hl
    revert hl
    split
    · intro hl
      exact absurd hl (List.not_mem_nil _)
    · dsimp only
      split <;> split <;> intro hl <;>
        first
          | exact absurd hl (List.not_mem_nil _)
          | (rw [List.mem_singleton] at hl; subst hl; rfl)

/-- Witness for C8 (amended): the UP shift from the example state places
one level carrying index `upperCount + 1 = 11`. -/
theorem edge_shift_fixed_level_index_witness :
    upPlacedLevel ∈ (moveGridUpOptimized envA exampleCfg moveState).placements ∧
    upPlacedLevel.levelIndex = exampleCfg.gridUpperCount + 1 := by
  have hmem : upPlacedLevel ∈
      (moveGridUpOptimized envA exampleCfg moveState).placements := by
    show upPlacedLevel ∈ [upPlacedLevel]
    exact List.mem_singleton.mpr rfl
  exact ⟨hmem, (edge_shift_fixed_level_index envA exampleCfg moveState).1 _ hmem⟩

/-- C8 counterexample: with 10 upper grids configured, two successive UP
edge-shifts both assign the same level index 11 to the order each adds
(`level_index = grid_upper_count + 1`, line 554 is a constant, not a "next
unused" counter), so two levels created by distinct edge-shifts in the same
direction share a level index. -/
theorem edge_shift_index_reused_counterexample :
    (moveGridUpOptimized envA exampleCfg moveState).placements.map
      GridLevel.levelIndex = [11] ∧
    (moveGridUpOptimized envB exampleCfg
      (moveGridUpOptimized envA exampleCfg moveState).state).placements.map
      GridLevel.levelIndex = [11] := by
  constructor <;> rfl

/-! ## C9: tolerance of empty sides and the price re-validation -/

lemma filter_removeOrder_eq_nil (l : List (String × GridLevel)) (k : String)
    (p : String × GridLevel → Bool) (h : l.filter p = []) :
    (removeOrder l k).filter p = [] := by
  rw [List.filter_eq_nil_iff] at h ⊢
  exact fun a ha => h a (mem_of_mem_removeOrder l k a ha)

/-- C9 amended: both edge-shift variants tolerate an absent trimmed side by
returning with nothing cancelled, nothing added and no placement (lines
502-504 and 584-586); both tolerate an absent extended side by falling back
to the center price — with no resting sell on an UP shift (resp. no resting
buy on a DOWN shift) the single new order is priced at
`roundToTick(centerPrice × (1 ± spacing/100))` (lines 535-537 and 617-619)
rather than faulting; and the DOWN variant re-validates that the newly
computed buy price is strictly positive before placing (lines 624-626);
the UP variant, however, performs no such check before placing its new
sell order. -/
theorem edge_shift_tolerance_and_down_price_check (env : MoveEnv)
    (cfg : TradingConfig) (s : GridState) :
    (s.activeGridOrders.filter (fun p => p.2.side == "buy") = [] →
      moveGridUpOptimized env cfg s =
        { state := s, cancelled := 0, added := 0, placements := [] }) ∧
    (s.activeGridOrders.filter (fun p => p.2.side == "sell") = [] →
      moveGridDownOptimized env cfg s =
        { state := s, cancelled := 0, added := 0, placements := [] }) ∧
    (∀ l ∈ (moveGridDownOptimized env cfg s).placements, 0 < l.price) ∧
    (s.activeGridOrders.filter (fun p => p.2.side == "buy") ≠ [] →
      s.activeGridOrders.filter (fun p => p.2.side == "sell") = [] →
      (moveGridUpOptimized env cfg s).placements.map GridLevel.price =
        (if env.roundToTick ((s.centerPrice.getD 0) *
            (1 + cfg.gridSpacing / 100)) = 0 then []
         else [env.roundToTick ((s.centerPrice.getD 0) *
            (1 + cfg.gridSpacing / 100))])) ∧
    (s.activeGridOrders.filter (fun p => p.2.side == "sell") ≠ [] →
      s.activeGridOrders.filter (fun p => p.2.side == "buy") = [] →
      (moveGridDownOptimized env cfg s).placements.map GridLevel.price =
        (if env.roundToTick ((s.centerPrice.getD 0) *
            (1 - cfg.gridSpacing / 100)) ≤ 0 then []
         else [env.roundToTick ((s.centerPrice.getD 0) *
            (1 - cfg.gridSpacing / 100))])) := by
  refine ⟨?_, ?_, ?_, ?_, ?_⟩
  · intro h
    unfold moveGridUpOptimized
    rw [h]
  · intro h
    unfold moveGridDownOptimized
    rw [h]
  · intro l hl
    unfold moveGridDownOptimized at hl
    revert hl
    split
    · intro hl
      exact absurd hl (List.not_mem_nil _)
    · dsimp only
      split <;> split <;> intro hl <;>
        first
          | exact absurd hl (List.not_mem_nil _)
          | (rw [List.mem_singleton] at hl; subst hl;
             simp only [not_le] at *; assumption)
  · intro hbuy hsell
    unfold moveGridUpOptimized
    cases hfb : s.activeGridOrders.filter (fun p => p.2.side == "buy") with
    | nil => exact absurd hfb hbuy
    | cons b bs =>
      cases hcs : env.cancelSuccess with
      | true =>
        simp only [eq_self_iff_true, if_true]
        rw [filter_removeOrder_eq_nil _ _ _ hsell]
        dsimp only
        by_cases hz : env.roundToTick ((s.centerPrice.getD 0) *
            (1 + cfg.gridSpacing / 100)) = 0
        · simp only [if_pos hz]
          rfl
        · simp only [if_neg hz]
          rfl
      | false =>
        simp only [Bool.false_eq_true, if_false]
        rw [hsell]
        dsimp only
        by_cases hz : env.roundToTick ((s.centerPrice.getD 0) *
            (1 + cfg.gridSpacing / 100)) = 0
        · simp only [if_pos hz]
          rfl
        · simp only [if_neg hz]
          rfl
  · intro hsell hbuy
    unfold moveGridDownOptimized
    cases hfs : s.activeGridOrders.filter (fun p => p.2.side == "sell") with
    | nil => exact absurd hfs hsell
    | cons sl sls =>
      cases hcs : env.cancelSuccess with
      | true =>
        simp only [eq_self_iff_true, if_true]
        rw [filter_removeOrder_eq_nil _ _ _ hbuy]
        dsimp only
        by_cases hz : env.roundToTick ((s.centerPrice.getD 0) *
            (1 - cfg.gridSpacing / 100)) ≤ 0
        · simp only [if_pos hz]
          rfl
        · simp only [if_neg hz]
          rfl
      | false =>
        simp only [Bool.false_eq_true, if_false]
        rw [hbuy]
        dsimp only
        by_cases hz : env.roundToTick ((s.centerPrice.getD 0) *
            (1 - cfg.gridSpacing / 100)) ≤ 0
        · simp only [if_pos hz]
          rfl
        · simp only [if_neg hz]
          rfl

/-- Witness for C9 (amended): from the empty initial state both edge-shift
variants return unchanged with no cancellation, no addition and no
placement; and from a buy-only (resp. sell-only) state around center 2000
the UP (resp. DOWN) shift falls back to the center price, placing its one
new order at the tick-rounded price 2040 instead of faulting. -/
theorem edge_shift_tolerance_witness :
    (initialGridState.activeGridOrders.filter (fun p => p.2.side == "buy") = []) ∧
    moveGridUpOptimized envA exampleCfg initialGridState =
      { state := initialGridState, cancelled := 0, added := 0, placements := [] } ∧
    moveGridDownOptimized envA exampleCfg initialGridState =
      { state := initialGridState, cancelled := 0, added := 0, placements := [] } ∧
    (moveGridUpOptimized envA exampleCfg buyOnlyState).placements.map
      GridLevel.price = [2040] ∧
    (moveGridDownOptimized envA exampleCfg sellOnlyState).placements.map
      GridLevel.price = [2040] :=
  ⟨rfl,
    (edge_shift_tolerance_and_down_price_check envA exampleCfg
      initialGridState).1 rfl,
    (edge_shift_tolerance_and_down_price_check envA exampleCfg
      initialGridState).2.1 rfl,
    (edge_shift_tolerance_and_down_price_check envA exampleCfg
      buyOnlyState).2.2.2.1 (by decide) rfl,
    (edge_shift_tolerance_and_down_price_check envA exampleCfg
      sellOnlyState).2.2.2.2 (by decide) rfl⟩

/-- C9 counterexample: under a tick rounding that returns −1 the UP variant
happily places a sell order at the non-positive price −1 (there is no
`new_sell_price <= 0` guard in `_move_grid_up_optimized`, unlike the DOWN
variant), refuting "both variants re-validate that any newly computed price
is strictly greater than 0 before placing". -/
theorem up_shift_no_price_check_counterexample :
    (moveGridUpOptimized envNeg exampleCfg moveState).placements.map
      GridLevel.price = [-1] ∧
    (moveGridUpOptimized envNeg exampleCfg moveState).added = 1 := by
  constructor <;> rfl

/-! ## C1: the grid level calculation -/

lemma buildLevels_ok (f : ℕ → Except String GridLevel) (g : ℕ → GridLevel)
    (l : List ℕ) (h : ∀ i ∈ l, f i = .ok (g i)) :
    buildLevels f l = .ok (l.map g) := by
  induction l with
  | nil => rfl
  | cons i rest ih =>
    unfold buildLevels
    rw [h i (List.mem_cons_self _ _)]
    simp only [Bind.bind, Except.bind]
    rw [ih (fun j hj => h j (List.mem_cons_of_mem _ hj))]
    rfl

lemma buyLevelAt_ok (cfg : TradingConfig) (center : ℚ) (i : ℕ)
    (hpos : 0 < center * (1 - cfg.gridSpacing / 100 * i)) :
    buyLevelAt id cfg center i =
      .ok { price := center * (1 - cfg.gridSpacing / 100 * i)
            side := "buy"
            quantity := roundQuantity cfg (cfg.gridPerOrderAmount /
              (center * (1 - cfg.gridSpacing / 100 * i)))
            levelIndex := -(i : ℤ) } := by
  unfold buyLevelAt
  simp only [id_eq]
  rw [if_neg (not_le.mpr hpos)]

lemma sellLevelAt_ok (cfg : TradingConfig) (center : ℚ) (i : ℕ)
    (hpos : 0 < center * (1 + cfg.gridSpacing / 100 * i)) :
    sellLevelAt id cfg center i =
      .ok { price := center * (1 + cfg.gridSpacing / 100 * i)
            side := "sell"
            quantity := roundQuantity cfg (cfg.gridPerOrderAmount /
              (center * (1 + cfg.gridSpacing / 100 * i)))
            levelIndex := (i : ℤ) } := by
  unfold sellLevelAt
  simp only [id_eq]
  rw [if_neg (not_le.mpr hpos)]

/-- C1 amended: with identity tick-rounding and the validation bound
`spacing/100 × lowerCount < 1` (guaranteed by `_validate_grid_config`
before the calculator ever runs), `_calculate_grid_levels` succeeds and
produces exactly the spec's ladder: `lowerCount` buy levels at
`center × (1 − spacing/100 × i)` with index `−i` followed by `upperCount`
sell levels at `center × (1 + spacing/100 × i)` with index `+i`; the level
count is `lowerCount + upperCount`; every buy price is strictly below and
every sell price strictly above the center; the index list is exactly
`[−1..−lowerCount] ++ [1..upperCount]`; and the prices agree with
`GridStrategyAnalyzer.calculate_grid_levels`. -/
theorem grid_level_calculation (cfg : TradingConfig) (center : ℚ)
    (hc : 0 < center) (hs : 0 < cfg.gridSpacing)
    (hl : 1 ≤ cfg.gridLowerCount) (_hu : 1 ≤ cfg.gridUpperCount)
    (_ha : 0 < cfg.gridPerOrderAmount)
    (hbound : cfg.gridSpacing / 100 * cfg.gridLowerCount < 1) :
    calculateGridLevels id cfg (some center) =
      .ok (specBuyLevels cfg center ++ specSellLevels cfg center) ∧
    (specBuyLevels cfg center ++ specSellLevels cfg center).length =
      cfg.gridLowerCount.toNat + cfg.gridUpperCount.toNat ∧
    (∀ l ∈ specBuyLevels cfg center ++ specSellLevels cfg center,
      (l.side = "buy" → l.price < center) ∧
      (l.side = "sell" → center < l.price)) ∧
    (specBuyLevels cfg center ++ specSellLevels cfg center).map
        GridLevel.levelIndex =
      (List.range' 1 cfg.gridLowerCount.toNat).map (fun i : ℕ => -(i : ℤ)) ++
      (List.range' 1 cfg.gridUpperCount.toNat).map (fun i : ℕ => (i : ℤ)) ∧
    analyzerCalculateGridLevels center cfg.gridSpacing
        cfg.gridUpperCount cfg.gridLowerCount =
      ((specBuyLevels cfg center).map GridLevel.price,
       (specSellLevels cfg center).map GridLevel.price) := by
  have hlQ : ((cfg.gridLowerCount.toNat : ℚ)) = (cfg.gridLowerCount : ℚ) := by
    have h0 : (0 : ℤ) ≤ cfg.gridLowerCount := by linarith
    exact_mod_cast congrArg (fun z : ℤ => (z : ℚ)) (Int.toNat_of_nonneg h0)
  have hbuy_pos : ∀ i ∈ List.range' 1 cfg.gridLowerCount.toNat,
      0 < center * (1 - cfg.gridSpacing / 100 * i) := by
    intro i hi
    rw [List.mem_range'] at hi
    obtain ⟨k, hk, rfl⟩ := hi
    have hile : 1 + 1 * k ≤ cfg.gridLowerCount.toNat := by omega
    have hiQ : ((1 + 1 * k : ℕ) : ℚ) ≤ (cfg.gridLowerCount : ℚ) := by
      rw [← hlQ]
      exact_mod_cast hile
    have hy : cfg.gridSpacing / 100 * ((1 + 1 * k : ℕ) : ℚ) ≤
        cfg.gridSpacing / 100 * (cfg.gridLowerCount : ℚ) :=
      mul_le_mul_of_nonneg_left hiQ (by positivity)
    have : cfg.gridSpacing / 100 * ((1 + 1 * k : ℕ) : ℚ) < 1 :=
      lt_of_le_of_lt hy hbound
    exact mul_pos hc (by linarith)
  have hsell_pos : ∀ i ∈ List.range' 1 cfg.gridUpperCount.toNat,
      0 < center * (1 + cfg.gridSpacing / 100 * i) := by
    intro i hi
    rw [List.mem_range'] at hi
    obtain ⟨k, hk, rfl⟩ := hi
    have hy : 0 ≤ cfg.gridSpacing / 100 * ((1 + 1 * k : ℕ) : ℚ) := by positivity
    exact mul_pos hc (by linarith)
  have hbuys : buildLevels (buyLevelAt id cfg center)
      (List.range' 1 cfg.gridLowerCount.toNat) =
      .ok (specBuyLevels cfg center) :=
    buildLevels_ok _ _ _ (fun i hi => buyLevelAt_ok cfg center i (hbuy_pos i hi))
  have hsells : buildLevels (sellLevelAt id cfg center)
      (List.range' 1 cfg.gridUpperCount.toNat) =
      .ok (specSellLevels cfg center) :=
    buildLevels_ok _ _ _ (fun i hi => sellLevelAt_ok cfg center i (hsell_pos i hi))
  refine ⟨?_, ?_, ?_, ?_, ?_⟩
  · unfold calculateGridLevels
    dsimp only
    rw [if_neg hc.ne']
    rw [hbuys]
    simp only [Bind.bind, Except.bind]
    rw [hsells]
  · simp [specBuyLevels, specSellLevels]
  · intro l hl
    rcases List.mem_append.mp hl with h | h
    · simp only [specBuyLevels] at h
      obtain ⟨i, hi, rfl⟩ := List.mem_map.mp h
      refine ⟨fun _ => ?_, fun hcon => by simp at hcon⟩
      rw [List.mem_range'] at hi
      obtain ⟨k, hk, rfl⟩ := hi
      have hiQ : (1 : ℚ) ≤ ((1 + 1 * k : ℕ) : ℚ) := by
        exact_mod_cast Nat.le_add_right 1 (1 * k)
      have hy : 0 < cfg.gridSpacing / 100 * ((1 + 1 * k : ℕ) : ℚ) := by
        have h100 : (0 : ℚ) < cfg.gridSpacing / 100 := by positivity
        nlinarith
      nlinarith [mul_pos hc hy]
    · simp only [specSellLevels] at h
      obtain ⟨i, hi, rfl⟩ := List.mem_map.mp h
      refine ⟨fun hcon => by simp at hcon, fun _ => ?_⟩
      rw [List.mem_range'] at hi
      obtain ⟨k, hk, rfl⟩ := hi
      have hiQ : (1 : ℚ) ≤ ((1 + 1 * k : ℕ) : ℚ) := by
        exact_mod_cast Nat.le_add_right 1 (1 * k)
      have hy : 0 < cfg.gridSpacing / 100 * ((1 + 1 * k : ℕ) : ℚ) := by
        have h100 : (0 : ℚ) < cfg.gridSpacing / 100 := by positivity
        nlinarith
      nlinarith [mul_pos hc hy]
  · simp only [specBuyLevels, specSellLevels, List.map_append, List.map_map]
    rfl
  · simp only [analyzerCalculateGridLevels, specBuyLevels, specSellLevels,
      List.map_map]
    rfl

/-- Witness for C1 (amended) at the spec's running example (center 2000,
spacing 1%, 10 + 10 grids, 50 USDT per order): the calculator returns
exactly the expected 10 buy and 10 sell levels, 20 in total. -/
theorem grid_level_calculation_witness :
    ((0 : ℚ) < 2000 ∧
      exampleCfg.gridSpacing / 100 * exampleCfg.gridLowerCount < 1) ∧
    calculateGridLevels id exampleCfg (some 2000) =
      .ok (specBuyLevels exampleCfg 2000 ++ specSellLevels exampleCfg 2000) ∧
    (specBuyLevels exampleCfg 2000 ++ specSellLevels exampleCfg 2000).length = 20 := by
  have h := grid_level_calculation exampleCfg 2000 (by norm_num)
    (by norm_num [exampleCfg]) (by norm_num [exampleCfg])
    (by norm_num [exampleCfg]) (by norm_num [exampleCfg])
    (by norm_num [exampleCfg])
  exact ⟨⟨by norm_num, by norm_num [exampleCfg]⟩, h.1, h.2.1⟩

/-- C1 counterexample: center 100 > 0, spacing 200% > 0, one level each
side, 50 > 0 per order satisfy all of the claim's preconditions, yet
`_calculate_grid_levels` raises "Buy grid price <= 0" (at i = 1 the buy
price is 100 × (1 − 2) = −100) instead of producing 1 + 1 levels, so the
claim fails without the validation bound `spacing × lowerCount < 100%`. -/
theorem grid_level_calculation_counterexample :
    ((0 : ℚ) < 100 ∧ (0 : ℚ) < badSpacingCfg.gridSpacing ∧
      1 ≤ badSpacingCfg.gridLowerCount ∧ 1 ≤ badSpacingCfg.gridUpperCount ∧
      0 < badSpacingCfg.gridPerOrderAmount) ∧
    calculateGridLevels id badSpacingCfg (some 100) =
      .error "Buy grid price <= 0" := by
  refine ⟨⟨by norm_num, by norm_num [badSpacingCfg, exampleCfg],
    by norm_num [badSpacingCfg, exampleCfg], by norm_num [badSpacingCfg, exampleCfg],
    by norm_num [badSpacingCfg, exampleCfg]⟩, ?_⟩
  have hneg : id ((100 : ℚ) *
      (1 - badSpacingCfg.gridSpacing / 100 * ((1 : ℕ) : ℚ))) ≤ 0 := by
    norm_num [badSpacingCfg, exampleCfg]
  have hrange : List.range' 1 badSpacingCfg.gridLowerCount.toNat = [1] := rfl
  unfold calculateGridLevels
  dsimp only
  rw [if_neg (by norm_num : (100 : ℚ) ≠ 0)]
  rw [hrange]
  unfold buildLevels buyLevelAt
  rw [if_pos hneg]
  rfl

end GridBot
